import Mathlib

/-!
Shallow embedding of the runtime endpoint-invocation engine of the
auto_mcp_server repository (src/models/platform_api_client.py,
src/models/service_registry.py, src/models/platform_mcp_server.py and the
dataclasses under src/models/config/).

Modelling conventions:
* Python `dict` objects are association lists `List (String × α)` with
  insertion-order preserving update (`dictInsert`) and lookup (`dictGet`),
  matching CPython dict semantics.
* JSON values are the inductive `JValue`; Python truthiness of a JSON value
  is `JValue.truthy`.
* Wall-clock timestamps are `Nat`.  Python computes `now - t < 60` on floats;
  for `t ≤ now` truncated `Nat` subtraction gives the same comparison, and for
  `t > now` both the float comparison (negative < 60) and the `Nat` one
  (0 < 60) hold, so `Nat` subtraction is faithful here.
* The network is an oracle `net : Nat → NetResult` giving the outcome of the
  HTTP request performed on the i-th loop attempt, would one be issued.
  Request construction (URL join of base_url/version/path, query string,
  JSON or form-data body including the appKey field) only shapes the wire
  request and is absorbed into the oracle.
* Python `int` fields that the engine only uses as loop bounds or durations
  (`timeout`, `max_retries`, `cache_ttl`) are modelled as `Nat`; a negative
  `max_retries` makes `range(max_retries)` empty exactly like `0`, so the
  truncation is behaviour-preserving.
* Exceptions are modelled with `Except`; each Python exception site has its
  own constructor.
-/

/-- JSON values as produced by `json.load` / `response.json()`. -/
inductive JValue where
  | null : JValue
  | bool : Bool → JValue
  | num : Int → JValue
  | str : String → JValue
  | arr : List JValue → JValue
  | obj : List (String × JValue) → JValue
deriving Repr

/-- Python truthiness of a JSON value (`bool(x)`):  `None`, `False`, `0`,
empty string, empty list and empty dict are falsy. -/
def JValue.truthy : JValue → Bool
  | .null => false
  | .bool b => b
  | .num n => n != 0
  | .str s => s != ""
  | .arr xs => !xs.isEmpty
  | .obj fs => !fs.isEmpty

/-- Lookup in a Python dict modelled as an association list (`d.get(k)` /
`d[k]` found case). -/
def dictGet {α : Type} : List (String × α) → String → Option α
  | [], _ => none
  | (k, v) :: rest, key => if k = key then some v else dictGet rest key

/-- Python dict assignment `d[k] = v`: replaces the value in place when the
key exists (keeping its position), otherwise appends the new binding. -/
def dictInsert {α : Type} : List (String × α) → String → α → List (String × α)
  | [], key, v => [(key, v)]
  | (k, w) :: rest, key, v =>
      if k = key then (key, v) :: rest else (k, w) :: dictInsert rest key v

/-- src/models/config/service_config.py: `ServiceConfig` dataclass. -/
structure ServiceConfig where
  name : String
  base_url : String
  api_key : String
  version : String
  timeout : Nat
  max_retries : Nat
  cache_ttl : Nat
deriving Repr, DecidableEq

/-- src/models/config/api_endpoint.py: `APIEndpoint` dataclass.
`parameters` keeps the raw JSON parameter schema. -/
structure APIEndpoint where
  path : String
  method : String
  description : String
  parameters : List (String × JValue)
  response_format : String
  requires_auth : Bool
  rate_limit : Option Int
  content_type : String
deriving Repr

/-- src/models/config/service_definition.py: `ServiceDefinition` dataclass.
`enabled` stores the truthiness of the configured value, which is all
`register_service` ever inspects. -/
structure ServiceDefinition where
  name : String
  category : String
  endpoints : List (String × APIEndpoint)
  description : String
  enabled : Bool
deriving Repr

/-- One HTTP response as seen by `_handle_response`: status code, body text,
and the result of `await response.json(content_type=None)` (`none` when the
body is not valid JSON, in which case that call raises). -/
structure HTTPResponse where
  status : Nat
  text : String
  jsonBody : Option JValue
deriving Repr

/-- Outcome of one attempted HTTP request: either a response arrived or the
transport layer failed (connection error, timeout, ...). -/
inductive NetResult where
  | resp : HTTPResponse → NetResult
  | transport : String → NetResult
deriving Repr

/-- Exceptions that can be raised inside the body of the retry loop of
`call_api` (and are therefore caught by its `except Exception` handler). -/
inductive AttemptError where
  /-- `Exception(f"API Error {status}: {error_text}")` raised by
  `_handle_response` on a status >= 400. -/
  | apiError : Nat → String → AttemptError
  /-- transport-level failure raised by `session.get` / `session.post`. -/
  | transport : String → AttemptError
  /-- `await response.json(...)` on a body that is not valid JSON. -/
  | jsonDecode : AttemptError
  /-- `.get` called on a non-dict value
  (`json_resp.get("data")` or `(...).get("list", [])`). -/
  | attributeError : AttemptError
  /-- `ValueError(f"Unsupported method: {endpoint.method}")`. -/
  | valueError : String → AttemptError
deriving Repr, DecidableEq

/-- Errors with which `call_api` itself can terminate. -/
inductive CallError where
  /-- `Exception(f"Rate limit exceeded for {endpoint.path}")`, raised before
  the retry loop. -/
  | rateLimit : String → CallError
  /-- the exception of the final failed attempt, re-raised by the bare
  `raise` in the `except` handler. -/
  | attempt : AttemptError → CallError
  /-- `UnboundLocalError` at `return result` when the loop body never ran
  (`max_retries` = 0). -/
  | unboundLocal : CallError
deriving Repr, DecidableEq

/-- Mutable state of one `PlatformAPIClient` instance: `_cache` and
`_rate_limits`. -/
structure ClientState where
  cache : List (String × (JValue × Nat))
  rate_limits : List (String × List Nat)
deriving Repr

/-- The empty state of a freshly constructed client. -/
def ClientState.init : ClientState := ⟨[], []⟩

/-- `PlatformAPIClient._is_cache_valid`: `time.time() - entry["timestamp"]
< self.config.cache_ttl`.  (Dead code in the current source: the cache
consultation in `call_api` is commented out.) -/
def is_cache_valid (entry : JValue × Nat) (now : Nat) (cache_ttl : Nat) : Bool :=
  now - entry.2 < cache_ttl

/-- `PlatformAPIClient._get_cache_key`: `f"{endpoint}:{hash(param_str)}"`
where `param_str = json.dumps(params, sort_keys=True)`.  The serialized
params and Python `hash` are abstracted into arguments; the function feeds
only the commented-out cache path. -/
def get_cache_key (pyHash : String → Int) (endpoint : String) (param_str : String) : String :=
  endpoint ++ ":" ++ toString (pyHash param_str)

/-- `str.upper()` as `endpoint.method.upper()` uses it (the ASCII uppercase
map, character by character). -/
def pyUpper (s : String) : String := String.mk (s.data.map Char.toUpper)

/-- `if not rate_limit:` — the Python falsy test on `Optional[int]`:
`None` and `0` are falsy. -/
def rl_truthy : Option Int → Bool
  | none => false
  | some n => n != 0

/-- The pruning comprehension inside `_check_rate_limit`:
`[t for t in self._rate_limits[endpoint] if now - t < 60]`. -/
def prune (now : Nat) (ts : List Nat) : List Nat :=
  ts.filter (fun t => now - t < 60)

/-- `PlatformAPIClient._check_rate_limit`.  Returns the admission verdict and
the updated client state: when the limit is truthy the (possibly fresh) entry
for the path is overwritten with its pruned timestamp list. -/
def check_rate_limit (st : ClientState) (endpoint : String) (rate_limit : Option Int)
    (now : Nat) : Bool × ClientState :=
  if rl_truthy rate_limit = false then (true, st)
  else
    let pruned := prune now ((dictGet st.rate_limits endpoint).getD [])
    (decide ((pruned.length : Int) < rate_limit.getD 0),
     { st with rate_limits := dictInsert st.rate_limits endpoint pruned })

/-- `PlatformAPIClient._handle_response`.  On a success status, a json-tagged
endpoint computes `(json_resp.get("data") or {}).get("list", [])`; calling
`.get` on a non-dict raises `AttributeError`. -/
def handle_response (r : HTTPResponse) (endpoint : APIEndpoint) :
    Except AttemptError JValue :=
  if 400 ≤ r.status then .error (.apiError r.status r.text)
  else if endpoint.response_format = "json" then
    match r.jsonBody with
    | none => .error .jsonDecode
    | some j =>
      match j with
      | .obj fields =>
        let d := (dictGet fields ("data")).getD JValue.null
        let d2 := if d.truthy then d else JValue.obj []
        match d2 with
        | .obj dfields => .ok ((dictGet dfields ("list")).getD (JValue.arr []))
        | _ => .error .attributeError
      | _ => .error .attributeError
  else .ok (JValue.obj [(("content"), JValue.str r.text)])

/-- One iteration of the body of the retry loop: dispatch on
`endpoint.method.upper()`.  GET and POST (either content type) perform one
HTTP request whose outcome the oracle supplies; any other method raises
`ValueError` without touching the network.  The second component counts the
HTTP requests performed (0 or 1). -/
def attempt_once (endpoint : APIEndpoint) (r : NetResult) :
    Except AttemptError JValue × Nat :=
  if pyUpper endpoint.method = "GET" ∨ pyUpper endpoint.method = "POST" then
    match r with
    | .transport msg => (.error (.transport msg), 1)
    | .resp resp => (handle_response resp endpoint, 1)
  else
    (.error (.valueError endpoint.method), 0)

/-- The verdict of attempt number `i` (used to state the retry claims). -/
def attemptOutcome (endpoint : APIEndpoint) (r : NetResult) :
    Except AttemptError JValue :=
  (attempt_once endpoint r).1

/-- Result of running the `for attempt in range(max_retries)` loop:
`outcome = none` means the loop finished without ever binding `result`
(only possible when it ran zero times); `some (.ok v)` means `break` with
`result = v`; `some (.error e)` means the final attempt re-raised `e`.
`reqs` counts HTTP requests, `sleeps` lists the `await asyncio.sleep(2 **
attempt)` durations in order. -/
structure RetryOut where
  outcome : Option (Except AttemptError JValue)
  reqs : Nat
  sleeps : List Nat
deriving Repr

/-- The retry loop of `call_api`, recursing on the remaining fuel
`fuel = max_retries - attempt` with `attempt` the current 0-based index.
`attempt == max_retries - 1` corresponds to `fuel = 1`, where `break` on
success and the re-`raise` on failure both end the loop at once, so the
attempt verdict is final either way. -/
def retry_loop (endpoint : APIEndpoint) (net : Nat → NetResult) :
    Nat → Nat → RetryOut
  | 0, _ => ⟨none, 0, []⟩
  | 1, attempt =>
    match attempt_once endpoint (net attempt) with
    | (res, reqs) => ⟨some res, reqs, []⟩
  | fuel + 2, attempt =>
    match attempt_once endpoint (net attempt) with
    | (Except.ok v, reqs) => ⟨some (Except.ok v), reqs, []⟩
    | (Except.error _, reqs) =>
      let rest := retry_loop endpoint net (fuel + 1) (attempt + 1)
      ⟨rest.outcome, reqs + rest.reqs, 2 ^ attempt :: rest.sleeps⟩

/-- `self._rate_limits[endpoint.path].append(t)` (the key is present
whenever this line runs, because a truthy limit made `_check_rate_limit`
create it). -/
def append_ts (m : List (String × List Nat)) (k : String) (t : Nat) :
    List (String × List Nat) :=
  dictInsert m k (((dictGet m k).getD []) ++ [t])

/-- Everything observable about one `call_api` invocation: its
result-or-exception, the number of HTTP requests performed, the backoff
sleeps awaited, and the client state afterwards. -/
structure CallOutput where
  result : Except CallError JValue
  httpRequests : Nat
  sleeps : List Nat
  state : ClientState
deriving Repr

/-- `PlatformAPIClient.call_api`.  Note, faithfully to the source: the cache
consultation and the cache write are commented out there, so `use_cache` and
`params` influence nothing but the wire request (absorbed into `net`); the
rate-limit timestamp is recorded after the loop, which also happens on the
`max_retries = 0` path where `return result` then raises
`UnboundLocalError`.  Time is held fixed at `now` for the duration of the
call. -/
def call_api (config : ServiceConfig) (endpoint : APIEndpoint)
    (params : List (String × JValue)) (use_cache : Bool) (now : Nat)
    (net : Nat → NetResult) (st : ClientState) : CallOutput :=
  let check := check_rate_limit st endpoint.path endpoint.rate_limit now
  if check.1 then
    let r := retry_loop endpoint net config.max_retries 0
    match r.outcome with
    | some (Except.error e) => ⟨.error (.attempt e), r.reqs, r.sleeps, check.2⟩
    | some (Except.ok v) =>
      let st2 :=
        if rl_truthy endpoint.rate_limit then
          { check.2 with rate_limits := append_ts check.2.rate_limits endpoint.path now }
        else check.2
      ⟨.ok v, r.reqs, r.sleeps, st2⟩
    | none =>
      let st2 :=
        if rl_truthy endpoint.rate_limit then
          { check.2 with rate_limits := append_ts check.2.rate_limits endpoint.path now }
        else check.2
      ⟨.error .unboundLocal, r.reqs, r.sleeps, st2⟩
  else
    ⟨.error (.rateLimit endpoint.path), 0, [], check.2⟩

/-- src/models/service_registry.py: `ServiceRegistry` — `self.services` and
`self.clients`.  A live `PlatformAPIClient` is represented by the
`ServiceConfig` it was constructed from (its only constructor argument). -/
structure RegistryState where
  services : List (String × ServiceDefinition)
  clients : List (String × ServiceConfig)
deriving Repr

/-- The registry of a freshly constructed server. -/
def RegistryState.init : RegistryState := ⟨[], []⟩

/-- `ServiceRegistry.register_service`: skip (log only) when the definition
is not enabled, otherwise store the definition and a fresh client under the
definition name, overwriting any prior entry. -/
def register_service (st : RegistryState) (service_def : ServiceDefinition)
    (config : ServiceConfig) : RegistryState :=
  if service_def.enabled = false then st
  else
    ⟨dictInsert st.services service_def.name service_def,
     dictInsert st.clients service_def.name config⟩

/-- `ServiceRegistry.get_service`. -/
def get_service (st : RegistryState) (name : String) : Option ServiceDefinition :=
  dictGet st.services name

/-- `ServiceRegistry.get_client`. -/
def get_client (st : RegistryState) (name : String) : Option ServiceConfig :=
  dictGet st.clients name

/-- `ServiceRegistry.list_services`: `list(self.services.keys())`. -/
def list_services (st : RegistryState) : List String :=
  st.services.map Prod.fst

/-- The contents of one configuration file as `register_service_from_config`
sees it: unreadable (`open` raises), not JSON (`json.load` raises), or a
parsed JSON document. -/
inductive ConfigFile where
  | missing : ConfigFile
  | badJson : ConfigFile
  | parsed : JValue → ConfigFile
deriving Repr

/-- The exceptions the parsing section of `register_service_from_config` can
raise (all before the registry is touched). -/
inductive ParseError where
  | fileNotFound : ParseError
  | jsonDecode : ParseError
  /-- `d[k]` with `k` absent from the dict `d`. -/
  | keyError : String → ParseError
  /-- subscripting / unpacking / constructing with a value of the wrong
  shape (`TypeError`, `AttributeError`, or a dataclass field narrowed by the
  model: Python dataclasses do not validate field types at runtime, so the
  model treats a field value outside the declared type as a parse error). -/
  | typeError : String → ParseError
deriving Repr, DecidableEq

/-- `d[k]` on a JSON value: `KeyError` when the key is absent, `TypeError`
when the value is not a dict. -/
def jGetKey (j : JValue) (k : String) : Except ParseError JValue :=
  match j with
  | .obj fields =>
    match dictGet fields k with
    | some v => Except.ok v
    | none => Except.error (.keyError k)
  | _ => Except.error (.typeError k)

/-- A required string-valued keyword of a dataclass call. -/
def reqStr (fields : List (String × JValue)) (k : String) : Except ParseError String :=
  match dictGet fields k with
  | some (JValue.str s) => Except.ok s
  | some _ => Except.error (.typeError k)
  | none => Except.error (.typeError k)

/-- An optional string-valued keyword with its dataclass default. -/
def optStr (fields : List (String × JValue)) (k : String) (d : String) :
    Except ParseError String :=
  match dictGet fields k with
  | some (JValue.str s) => Except.ok s
  | some _ => Except.error (.typeError k)
  | none => Except.ok d

/-- An optional integer keyword with its dataclass default (negative values
truncate to 0, which is behaviour-preserving for the loop bounds and
durations these feed). -/
def optNat (fields : List (String × JValue)) (k : String) (d : Nat) :
    Except ParseError Nat :=
  match dictGet fields k with
  | some (JValue.num n) => Except.ok n.toNat
  | some _ => Except.error (.typeError k)
  | none => Except.ok d

/-- `ServiceConfig(**config_data['service_config'])`: required `name`,
`base_url`, `api_key`; defaulted `version`, `timeout`, `max_retries`,
`cache_ttl`; any unexpected keyword raises `TypeError`. -/
def parse_service_config (j : JValue) : Except ParseError ServiceConfig :=
  match j with
  | .obj fields =>
    if fields.all (fun p =>
        (["name", "base_url", "api_key", "version", "timeout", "max_retries",
          "cache_ttl"]).contains p.1) then do
      let name ← reqStr fields ("name")
      let base_url ← reqStr fields ("base_url")
      let api_key ← reqStr fields ("api_key")
      let version ← optStr fields ("version") ("v1")
      let timeout ← optNat fields ("timeout") 30
      let max_retries ← optNat fields ("max_retries") 3
      let cache_ttl ← optNat fields ("cache_ttl") 300
      Except.ok ⟨name, base_url, api_key, version, timeout, max_retries, cache_ttl⟩
    else Except.error (.typeError ("unexpected keyword argument"))
  | _ => Except.error (.typeError ("argument after ** must be a mapping"))

/-- `APIEndpoint(**ep_data)`: required `path`; the remaining fields carry
their dataclass defaults; any unexpected keyword raises `TypeError`. -/
def parse_endpoint (j : JValue) : Except ParseError APIEndpoint :=
  match j with
  | .obj fields =>
    if fields.all (fun p =>
        (["path", "method", "description", "parameters", "response_format",
          "requires_auth", "rate_limit", "content_type"]).contains p.1) then do
      let path ← reqStr fields ("path")
      let method ← optStr fields ("method") ("GET")
      let description ← optStr fields ("description") ("")
      let parameters ←
        match dictGet fields ("parameters") with
        | some (JValue.obj ps) => Except.ok ps
        | some _ => Except.error (.typeError ("parameters"))
        | none => Except.ok []
      let response_format ← optStr fields ("response_format") ("json")
      let requires_auth :=
        match dictGet fields ("requires_auth") with
        | some v => v.truthy
        | none => true
      let rate_limit ←
        match dictGet fields ("rate_limit") with
        | some (JValue.num n) => Except.ok (some n)
        | some JValue.null => Except.ok (none : Option Int)
        | some _ => Except.error (.typeError ("rate_limit"))
        | none => Except.ok (none : Option Int)
      let content_type ← optStr fields ("content_type") ("json")
      Except.ok ⟨path, method, description, parameters, response_format,
        requires_auth, rate_limit, content_type⟩
    else Except.error (.typeError ("unexpected keyword argument"))
  | _ => Except.error (.typeError ("argument after ** must be a mapping"))

/-- The loop `for ep_name, ep_data in service_def_data['endpoints'].items():
endpoints[ep_name] = APIEndpoint(**ep_data)`. -/
def parse_endpoints : List (String × JValue) →
    Except ParseError (List (String × APIEndpoint))
  | [] => Except.ok []
  | (n, ej) :: rest => do
    let e ← parse_endpoint ej
    let r ← parse_endpoints rest
    Except.ok ((n, e) :: r)

/-- `d.get(k, default)` on a JSON value known to be a dict. -/
def jGetDefault (j : JValue) (k : String) (d : JValue) : JValue :=
  match j with
  | .obj fields => (dictGet fields k).getD d
  | _ => d

/-- The parsing section of `PlatformMCPServer.register_service_from_config`
(everything before `self.registry.register_service`), in source order:
read and JSON-decode the file, build the `ServiceConfig`, walk
`service_definition.endpoints` building `APIEndpoint`s, then build the
`ServiceDefinition` (with `.get` defaults for `description` and
`enabled`). -/
def parse_config (cf : ConfigFile) :
    Except ParseError (ServiceConfig × ServiceDefinition) :=
  match cf with
  | .missing => Except.error .fileNotFound
  | .badJson => Except.error .jsonDecode
  | .parsed j => do
    let sc_json ← jGetKey j ("service_config")
    let service_config ← parse_service_config sc_json
    let sd ← jGetKey j ("service_definition")
    let eps_json ← jGetKey sd ("endpoints")
    let endpoints ←
      match eps_json with
      | JValue.obj eps => parse_endpoints eps
      | _ => Except.error (.typeError ("endpoints"))
    let name ←
      match ← jGetKey sd ("name") with
      | JValue.str s => Except.ok s
      | _ => Except.error (.typeError ("name"))
    let category ←
      match ← jGetKey sd ("category") with
      | JValue.str s => Except.ok s
      | _ => Except.error (.typeError ("category"))
    let description ←
      match jGetDefault sd ("description") (JValue.str "") with
      | JValue.str s => Except.ok s
      | _ => Except.error (.typeError ("description"))
    let enabled := (jGetDefault sd ("enabled") (JValue.bool true)).truthy
    Except.ok (service_config, ⟨name, category, endpoints, description, enabled⟩)

/-- `PlatformMCPServer._create_service_tools`: one MCP tool named
`f"{service_def.name}_{endpoint_name}"` is registered per endpoint of the
definition, unconditionally. -/
def create_service_tools (service_def : ServiceDefinition) : List String :=
  service_def.endpoints.map (fun p => service_def.name ++ "_" ++ p.1)

/-- `PlatformMCPServer.register_service_from_config`: parse, then register
with the registry, then create the MCP tools.  Returns the registry state
afterwards, the names of the tools bound by this call, and the propagated
exception if parsing failed. -/
def register_service_from_config (st : RegistryState) (cf : ConfigFile) :
    RegistryState × List String × Except ParseError Unit :=
  match parse_config cf with
  | Except.error e => (st, [], Except.error e)
  | Except.ok (config, sdef) =>
    (register_service st sdef config, create_service_tools sdef, Except.ok ())

mutual
/-- Number of constructors in a JSON value, used as recursion fuel for the
serializer below (it bounds the nesting depth). -/
def jvSize : JValue → Nat
  | .null => 1
  | .bool _ => 1
  | .num _ => 1
  | .str _ => 1
  | .arr xs => 1 + jvSizeArr xs
  | .obj fs => 1 + jvSizeObj fs
/-- Total `jvSize` of the elements of a JSON array. -/
def jvSizeArr : List JValue → Nat
  | [] => 0
  | x :: r => jvSize x + jvSizeArr r
/-- Total `jvSize` of the member values of a JSON object. -/
def jvSizeObj : List (String × JValue) → Nat
  | [] => 0
  | p :: r => jvSize p.2 + jvSizeObj r
end

/-- One hexadecimal digit (lower case), for JSON control-character
escapes. -/
def hexDigit (n : Nat) : String :=
  String.singleton (Char.ofNat (if n < 10 then 48 + n else 87 + n))

/-- JSON string escaping as `json.dumps` performs it with
`ensure_ascii=False`: quotes, backslashes and control characters are
escaped, everything else (non-ASCII included) is emitted verbatim. -/
def jsonEscapeChar (c : Char) : String :=
  if c = '"' then "\\\""
  else if c = '\\' then "\\\\"
  else if c = '\n' then "\\n"
  else if c = '\r' then "\\r"
  else if c = '\t' then "\\t"
  else if c.toNat = 8 then "\\b"
  else if c.toNat = 12 then "\\f"
  else if c.toNat < 32 then "\\u00" ++ hexDigit (c.toNat / 16) ++ hexDigit (c.toNat % 16)
  else String.singleton c

/-- Escape a whole string for a JSON string literal. -/
def jsonEscape (s : String) : String :=
  String.join (s.data.map jsonEscapeChar)

/-- `indent * level` two-space indentation units. -/
def indentStr (level : Nat) : String :=
  String.mk (List.replicate (2 * level) ' ')

/-- `json.dumps(v, ensure_ascii=False, indent=2)`, written with an explicit
recursion-depth fuel because `JValue` is a nested inductive; the fuel is
instantiated with `jvSize v`, which bounds the nesting depth, so the
exhaustion branch is unreachable. -/
def json_dumps_fuel : Nat → Nat → JValue → String
  | 0, _, _ => ""
  | _ + 1, _, JValue.null => "null"
  | _ + 1, _, JValue.bool b => if b then "true" else "false"
  | _ + 1, _, JValue.num n => toString n
  | _ + 1, _, JValue.str s => "\"" ++ jsonEscape s ++ "\""
  | _ + 1, _, JValue.arr [] => "[]"
  | fuel + 1, level, JValue.arr (v :: vs) =>
      "[\n" ++
      String.intercalate ",\n"
        ((v :: vs).map (fun w => indentStr (level + 1) ++ json_dumps_fuel fuel (level + 1) w)) ++
      "\n" ++ indentStr level ++ "]"
  | _ + 1, _, JValue.obj [] => "\x7b\x7d"
  | fuel + 1, level, JValue.obj (p :: ps) =>
      "\x7b\n" ++
      String.intercalate ",\n"
        ((p :: ps).map (fun q =>
          indentStr (level + 1) ++ "\"" ++ jsonEscape q.1 ++ "\": " ++
          json_dumps_fuel fuel (level + 1) q.2)) ++
      "\n" ++ indentStr level ++ "\x7d"

/-- `json.dumps(result, ensure_ascii=False, indent=2)` as used by the tool
handler. -/
def json_dumps (v : JValue) : String :=
  json_dumps_fuel (jvSize v) 0 v

/-- `str(e)` for the exceptions `call_api` can raise (the messages of the
library-raised exceptions are modelled by fixed descriptive strings; only
the two messages built by the repository itself are exact). -/
def errString : CallError → String
  | .rateLimit path => "Rate limit exceeded for " ++ path
  | .attempt (.apiError status text) => "API Error " ++ toString status ++ ": " ++ text
  | .attempt (.transport msg) => msg
  | .attempt .jsonDecode => "JSON decode error"
  | .attempt .attributeError => "object has no attribute get"
  | .attempt (.valueError m) => "Unsupported method: " ++ m
  | .unboundLocal => "local variable result referenced before assignment"

/-- What one invocation of a bound tool does: either the handler returns a
string to the agent layer, or an exception escapes it. -/
inductive HandlerOutcome where
  | returns : String → HandlerOutcome
  | raises : String → HandlerOutcome
deriving Repr, DecidableEq

/-- Whether the handler returned (rather than raised). -/
def HandlerOutcome.isReturn : HandlerOutcome → Bool
  | .returns _ => true
  | .raises _ => false

/-- The tool handler synthesized by `_create_service_tools`
(`handler_func` / `execute_api_call`), invoked with a keyword-parameter
mapping.  `service_name` and `ep_name` are the values captured at bind
time; the client, the definition and the endpoint are looked up afresh in
the registry.  The lookup `service.endpoints[ep_name]` sits outside the
`try`, so its `KeyError` escapes; everything inside the `async with client:`
block is caught and rendered as a diagnostic string.  The event-loop
bridging (run_until_complete / worker thread) transports the same value and
is not modelled. -/
def handler_func (reg : RegistryState) (service_name ep_name : String)
    (kwargs : List (String × JValue)) (now : Nat) (net : Nat → NetResult)
    (cst : ClientState) : HandlerOutcome :=
  match get_client reg service_name, get_service reg service_name with
  | some config, some service =>
    match dictGet service.endpoints ep_name with
    | none => HandlerOutcome.raises ("KeyError: " ++ ep_name)
    | some endpoint_obj =>
      match (call_api config endpoint_obj kwargs false now net cst).result with
      | Except.ok v => HandlerOutcome.returns (json_dumps v)
      | Except.error e => HandlerOutcome.returns ("调用失败: " ++ errString e)
  | _, _ => HandlerOutcome.returns ("服务 " ++ service_name ++ " 不可用")


/-! Helper lemmas about the embedded operations, shared by the claim
theorems below. -/

/-- The rate-limit check never touches the cache. -/
theorem check_rate_limit_cache (st : ClientState) (endpoint : String)
    (rate_limit : Option Int) (now : Nat) :
    (check_rate_limit st endpoint rate_limit now).2.cache = st.cache := by
  unfold check_rate_limit
  split <;> rfl

/-- Unfolding the loop on its final permitted attempt. -/
theorem retry_loop_one (ep : APIEndpoint) (net : Nat → NetResult) (a : Nat)
    (res : Except AttemptError JValue) (c : Nat)
    (h : attempt_once ep (net a) = (res, c)) :
    retry_loop ep net 1 a = ⟨some res, c, []⟩ := by
  simp [retry_loop, h]

/-- Unfolding the loop on a successful non-final attempt (`break`). -/
theorem retry_loop_step_ok (ep : APIEndpoint) (net : Nat → NetResult) (a f : Nat)
    (v : JValue) (c : Nat) (h : attempt_once ep (net a) = (Except.ok v, c)) :
    retry_loop ep net (f + 2) a = ⟨some (Except.ok v), c, []⟩ := by
  simp [retry_loop, h]

/-- Unfolding the loop on a failed non-final attempt (log, sleep
`2 ^ attempt`, continue). -/
theorem retry_loop_step_err (ep : APIEndpoint) (net : Nat → NetResult) (a f : Nat)
    (e : AttemptError) (c : Nat) (h : attempt_once ep (net a) = (Except.error e, c)) :
    retry_loop ep net (f + 2) a =
      ⟨(retry_loop ep net (f + 1) (a + 1)).outcome,
       c + (retry_loop ep net (f + 1) (a + 1)).reqs,
       2 ^ a :: (retry_loop ep net (f + 1) (a + 1)).sleeps⟩ := by
  simp [retry_loop, h]

/-- When every attempt in the window fails with constant request cost `c`,
the loop runs the whole window, re-raises the error of the last attempt,
performs `f * c` HTTP requests, and sleeps `2 ^ i` after each non-final
attempt `i`. -/
theorem retry_loop_const_err (ep : APIEndpoint) (net : Nat → NetResult)
    (err : Nat → AttemptError) (c : Nat) :
    ∀ f a, 1 ≤ f →
    (∀ i, i < f → attempt_once ep (net (a + i)) = (Except.error (err (a + i)), c)) →
    retry_loop ep net f a =
      ⟨some (Except.error (err (a + f - 1))), f * c,
       (List.range' a (f - 1)).map (fun i => 2 ^ i)⟩ := by
  intro f
  induction f with
  | zero => intro a h; omega
  | succ f ih =>
    intro a _ hfail
    have h0 := hfail 0 (by omega)
    simp only [Nat.add_zero] at h0
    match f, ih with
    | 0, _ =>
      rw [retry_loop_one ep net a _ c h0]
      simp
    | f' + 1, ih =>
      have hrest := ih (a + 1) (by omega) (fun i hi => by
        have h := hfail (i + 1) (by omega)
        have e : a + (i + 1) = a + 1 + i := by omega
        rw [e] at h
        exact h)
      rw [retry_loop_step_err ep net a f' _ c h0, hrest]
      have e1 : a + 1 + (f' + 1) - 1 = a + (f' + 1 + 1) - 1 := by omega
      have e3 : f' + 1 + 1 - 1 = f' + 1 := by omega
      have e4 : f' + 1 - 1 = f' := by omega
      simp only [RetryOut.mk.injEq]
      refine ⟨by rw [e1], by ring, ?_⟩
      rw [e3, e4, List.range'_succ]
      simp

/-- When the first `j` attempts fail (with constant request cost `c`) and
attempt `j` succeeds with value `v`, the loop breaks with `v` after `j + 1`
attempts and the sleeps of the `j` failed ones. -/
theorem retry_loop_ok_at (ep : APIEndpoint) (net : Nat → NetResult) (c : Nat) :
    ∀ j f a v, j < f →
    (∀ i, i < j → ∃ e, attempt_once ep (net (a + i)) = (Except.error e, c)) →
    attempt_once ep (net (a + j)) = (Except.ok v, c) →
    retry_loop ep net f a =
      ⟨some (Except.ok v), (j + 1) * c,
       (List.range' a j).map (fun i => 2 ^ i)⟩ := by
  intro j
  induction j with
  | zero =>
    intro f a v hf _ hok
    simp only [Nat.add_zero] at hok
    match f, hf with
    | 1, _ => simp [retry_loop_one ep net a _ c hok]
    | f' + 2, _ => simp [retry_loop_step_ok ep net a f' v c hok]
  | succ j ih =>
    intro f a v hf hfail hok
    obtain ⟨e0, h0⟩ := hfail 0 (by omega)
    simp only [Nat.add_zero] at h0
    match f, hf with
    | f' + 2, hf =>
      have hrest := ih (f' + 1) (a + 1) v (by omega)
        (fun i hi => by
          obtain ⟨e, he⟩ := hfail (i + 1) (by omega)
          have eq : a + (i + 1) = a + 1 + i := by omega
          rw [eq] at he
          exact ⟨e, he⟩)
        (by
          have eq : a + (j + 1) = a + 1 + j := by omega
          rw [eq] at hok
          exact hok)
      rw [retry_loop_step_err ep net a f' e0 c h0, hrest]
      simp only [RetryOut.mk.injEq]
      refine ⟨trivial, by ring, ?_⟩
      rw [List.range'_succ]
      simp

/-- With at least one unit of fuel the loop always binds `result` or
raises: the `outcome` is never `none`. -/
theorem retry_loop_outcome_isSome (ep : APIEndpoint) (net : Nat → NetResult) :
    ∀ f a, 1 ≤ f → (retry_loop ep net f a).outcome.isSome = true := by
  intro f
  induction f with
  | zero => intro a h; omega
  | succ f ih =>
    intro a _
    rcases h : attempt_once ep (net a) with ⟨res, reqs⟩
    match f with
    | 0 => simp [retry_loop_one ep net a res reqs h]
    | f' + 1 =>
      rcases res with v | e
      · simp [retry_loop_step_err ep net a f' v reqs h]
        exact ih (a + 1) (by omega)
      · simp [retry_loop_step_ok ep net a f' e reqs h]

/-- For an endpoint whose upper-cased method is neither GET nor POST, every
loop iteration raises `ValueError` without a request. -/
theorem attempt_once_unsupported (ep : APIEndpoint)
    (hm : ¬(pyUpper ep.method = "GET" ∨ pyUpper ep.method = "POST")) (r : NetResult) :
    attempt_once ep r = (Except.error (AttemptError.valueError ep.method), 0) := by
  simp [attempt_once, hm]

/-- For a GET or POST endpoint each loop iteration performs exactly one
HTTP request, with the verdict of `attemptOutcome`. -/
theorem attempt_once_supported (ep : APIEndpoint)
    (hm : pyUpper ep.method = "GET" ∨ pyUpper ep.method = "POST") (r : NetResult) :
    attempt_once ep r = (attemptOutcome ep r, 1) := by
  rcases r with resp | msg <;> simp [attempt_once, attemptOutcome, hm]

/-- Looking up the key just written returns the written value. -/
theorem dictGet_dictInsert_self {α : Type} (m : List (String × α)) (k : String) (v : α) :
    dictGet (dictInsert m k v) k = some v := by
  induction m with
  | nil => simp [dictGet, dictInsert]
  | cons p rest ih =>
    by_cases h : p.1 = k
    · simp [dictGet, dictInsert, h]
    · simp [dictGet, dictInsert, h, ih]

/-- Writing the same key twice keeps only the second value. -/
theorem dictInsert_dictInsert {α : Type} (m : List (String × α)) (k : String) (v w : α) :
    dictInsert (dictInsert m k v) k w = dictInsert m k w := by
  induction m with
  | nil => simp [dictInsert]
  | cons p rest ih =>
    by_cases h : p.1 = k
    · simp [dictInsert, h]
    · simp [dictInsert, h, ih]

/-- A call rejected by the rate limiter raises at once: no request, no
sleep, and only the pruning of the window as a state change. -/
theorem call_api_rejected (config : ServiceConfig) (ep : APIEndpoint)
    (params : List (String × JValue)) (uc : Bool) (now : Nat) (net : Nat → NetResult)
    (st : ClientState)
    (h : (check_rate_limit st ep.path ep.rate_limit now).1 = false) :
    call_api config ep params uc now net st =
      ⟨Except.error (CallError.rateLimit ep.path), 0, [],
       (check_rate_limit st ep.path ep.rate_limit now).2⟩ := by
  simp [call_api, h]

/-- An admitted call is entirely determined by the retry loop: its request
count and sleeps are the loop's, and its result is the loop verdict
(`UnboundLocalError` when the loop never ran). -/
theorem call_api_admitted (config : ServiceConfig) (ep : APIEndpoint)
    (params : List (String × JValue)) (uc : Bool) (now : Nat) (net : Nat → NetResult)
    (st : ClientState)
    (h : (check_rate_limit st ep.path ep.rate_limit now).1 = true) :
    (call_api config ep params uc now net st).httpRequests =
      (retry_loop ep net config.max_retries 0).reqs
    ∧ (call_api config ep params uc now net st).sleeps =
      (retry_loop ep net config.max_retries 0).sleeps
    ∧ (∀ e, (retry_loop ep net config.max_retries 0).outcome = some (Except.error e) →
        (call_api config ep params uc now net st).result = Except.error (CallError.attempt e))
    ∧ (∀ v, (retry_loop ep net config.max_retries 0).outcome = some (Except.ok v) →
        (call_api config ep params uc now net st).result = Except.ok v)
    ∧ ((retry_loop ep net config.max_retries 0).outcome = none →
        (call_api config ep params uc now net st).result = Except.error CallError.unboundLocal) := by
  rcases ho : (retry_loop ep net config.max_retries 0).outcome with _ | res
  · refine ⟨?_, ?_, ?_, ?_, ?_⟩ <;> simp [call_api, h, ho]
  · rcases res with e | v <;>
      (refine ⟨?_, ?_, ?_, ?_, ?_⟩ <;> simp [call_api, h, ho])

/-- `call_api` never reads or writes `_cache`, whatever its arguments. -/
theorem call_api_cache_invariant (config : ServiceConfig) (ep : APIEndpoint)
    (params : List (String × JValue)) (uc : Bool) (now : Nat) (net : Nat → NetResult)
    (st : ClientState) :
    (call_api config ep params uc now net st).state.cache = st.cache := by
  have hc := check_rate_limit_cache st ep.path ep.rate_limit now
  rcases hb : (check_rate_limit st ep.path ep.rate_limit now).1 with _ | _
  · simp [call_api, hb, hc]
  · rcases ho : (retry_loop ep net config.max_retries 0).outcome with _ | res
    · simp [call_api, hb, ho]
      split <;> simp [hc]
    · rcases res with e | v
      · simp [call_api, hb, ho, hc]
      · simp [call_api, hb, ho]
        split <;> simp [hc]

/-- For a GET or POST endpoint, a loop window with fuel performs at least
one HTTP request. -/
theorem retry_loop_reqs_pos (ep : APIEndpoint) (net : Nat → NetResult)
    (hm : pyUpper ep.method = "GET" ∨ pyUpper ep.method = "POST") :
    ∀ f a, 1 ≤ f → 1 ≤ (retry_loop ep net f a).reqs := by
  intro f
  induction f with
  | zero => intro a h; omega
  | succ f _ =>
    intro a _
    have h1 := attempt_once_supported ep hm (net a)
    match f with
    | 0 => simp [retry_loop_one ep net a _ 1 h1]
    | f' + 1 =>
      rcases hr : attemptOutcome ep (net a) with e | v
      · rw [hr] at h1
        simp [retry_loop_step_err ep net a f' e 1 h1]
      · rw [hr] at h1
        simp [retry_loop_step_ok ep net a f' v 1 h1]

/-- The trailing-60-second window of a path, as `_check_rate_limit` computes
it before comparing against the limit. -/
def pruned_window (st : ClientState) (path : String) (now : Nat) : List Nat :=
  prune now ((dictGet st.rate_limits path).getD [])

/-! Concrete fixtures used by counterexamples and witnesses. -/

/-- A service configuration with the dataclass defaults
(`max_retries = 3`, `cache_ttl = 300`). -/
def exCfg : ServiceConfig := ⟨"svc", "http://backend", "key", "v1", 30, 3, 300⟩

/-- The same configuration with `max_retries = 0`. -/
def exCfg0 : ServiceConfig := ⟨"svc", "http://backend", "key", "v1", 30, 0, 300⟩

/-- A plain GET json endpoint without a rate limit. -/
def exEpGet : APIEndpoint := ⟨"users", "GET", "", [], "json", true, none, "json"⟩

/-- A PUT endpoint (unsupported method). -/
def exEpPut : APIEndpoint := ⟨"users", "PUT", "", [], "json", true, none, "json"⟩

/-- A GET endpoint with `rate_limit = 1`. -/
def exEpLim1 : APIEndpoint := ⟨"users", "GET", "", [], "json", true, some 1, "json"⟩

/-- A GET endpoint with the declared (but Python-falsy) `rate_limit = 0`. -/
def exEpLim0 : APIEndpoint := ⟨"users", "GET", "", [], "json", true, some 0, "json"⟩

/-- A backend that always answers 200 with body `{"data": {"list": [1]}}`. -/
def exNetOk : Nat → NetResult := fun _ =>
  NetResult.resp ⟨200, "t",
    some (JValue.obj [("data", JValue.obj [("list", JValue.arr [JValue.num 1])])])⟩

/-- A backend that always answers 200 with body `{"data": {"list": [2]}}`. -/
def exNetOk2 : Nat → NetResult := fun _ =>
  NetResult.resp ⟨200, "t",
    some (JValue.obj [("data", JValue.obj [("list", JValue.arr [JValue.num 2])])])⟩

/-- A backend that always answers 500 with body `boom`. -/
def exNetFail : Nat → NetResult := fun _ => NetResult.resp ⟨500, "boom", none⟩

/-! The claims. -/

/-- Claim C4, as stated, is false at a declared rate limit of 0: with an
empty window the code admits the call (`_check_rate_limit` short-circuits on
the falsy limit), while "admits iff remaining count < limit" demands
rejection, the remaining count 0 not being < 0. -/
theorem c4_counterexample :
    (check_rate_limit ClientState.init "users" (some 0) 5).1 = true
    ∧ ¬(((prune 5 ((dictGet ClientState.init.rate_limits "users").getD [])).length : Int) < 0) :=
  ⟨rfl, by decide⟩

/-- Claim C4 (amended): with no configured limit, and also with the declared
but Python-falsy limit 0, the check admits without touching the window; with
any other declared limit `n` it first overwrites the window with the
timestamps younger than 60 seconds and admits iff their count is strictly
below `n`. -/
theorem c4_rate_check (st : ClientState) (path : String) (now : Nat) :
    check_rate_limit st path none now = (true, st)
    ∧ check_rate_limit st path (some 0) now = (true, st)
    ∧ (∀ n : Int, n ≠ 0 →
        check_rate_limit st path (some n) now =
          (decide (((pruned_window st path now).length : Int) < n),
           { st with rate_limits := dictInsert st.rate_limits path (pruned_window st path now) })) := by
  refine ⟨by simp [check_rate_limit, rl_truthy], by simp [check_rate_limit, rl_truthy], ?_⟩
  intro n hn
  have ht : rl_truthy (some n) = true := by simp [rl_truthy, hn]
  simp [check_rate_limit, ht, pruned_window]

/-- Witness for the amended claim C4: limit 3 on a window holding one stale
and one fresh timestamp at time 100 prunes to the fresh one and admits. -/
theorem c4_rate_check_witness :
    ((3 : Int) ≠ 0)
    ∧ check_rate_limit ⟨[], [("p", [4, 100])]⟩ "p" (some 3) 100 =
        (true, ⟨[], [("p", [100])]⟩) := by
  refine ⟨by decide, ?_⟩
  have h := (c4_rate_check ⟨[], [("p", [4, 100])]⟩ "p" 100).2.2 3 (by decide)
  rw [h]
  rfl

/-- Claim C5, as stated, is false at the configured rate limit N = 0: after
0 recorded calls the (N+1)-th = first `call_api` in the window does not fail
with RateLimitExceeded — the falsy limit is treated as no limit, the call
performs one HTTP request and succeeds. -/
theorem c5_counterexample :
    (call_api exCfg exEpLim0 [] true 5 exNetOk ClientState.init).result
        = Except.ok (JValue.arr [JValue.num 1])
    ∧ (call_api exCfg exEpLim0 [] true 5 exNetOk ClientState.init).httpRequests = 1 :=
  ⟨rfl, rfl⟩

/-- Claim C5 (amended): for a configured rate limit N ≥ 1, a `call_api`
arriving while N timestamps sit in the trailing-60-second window fails
immediately with the RateLimitExceeded condition, performs zero HTTP
requests, and is not retried (no backoff sleep). -/
theorem c5_limit_reached (config : ServiceConfig) (ep : APIEndpoint)
    (params : List (String × JValue)) (uc : Bool) (now : Nat) (net : Nat → NetResult)
    (st : ClientState) (N : Nat) (hN : 1 ≤ N) (hrl : ep.rate_limit = some (N : Int))
    (hw : (prune now ((dictGet st.rate_limits ep.path).getD [])).length = N) :
    (call_api config ep params uc now net st).result
        = Except.error (CallError.rateLimit ep.path)
    ∧ (call_api config ep params uc now net st).httpRequests = 0
    ∧ (call_api config ep params uc now net st).sleeps = [] := by
  have ht : rl_truthy (some ((N : Nat) : Int)) = true := by
    simp [rl_truthy]
    omega
  have hchk : (check_rate_limit st ep.path ep.rate_limit now).1 = false := by
    simp only [check_rate_limit, hrl, ht]
    simp [hw]
  rw [call_api_rejected config ep params uc now net st hchk]
  exact ⟨rfl, rfl, rfl⟩

/-- Witness for the amended claim C5: limit 1, one fresh timestamp in the
window, the next call is rejected without any HTTP request or sleep. -/
theorem c5_limit_reached_witness :
    1 ≤ 1
    ∧ exEpLim1.rate_limit = some ((1 : Nat) : Int)
    ∧ (prune 5 ((dictGet (⟨[], [("users", [4])]⟩ : ClientState).rate_limits
        exEpLim1.path).getD [])).length = 1
    ∧ (call_api exCfg exEpLim1 [] true 5 exNetOk ⟨[], [("users", [4])]⟩).result
        = Except.error (CallError.rateLimit "users")
    ∧ (call_api exCfg exEpLim1 [] true 5 exNetOk ⟨[], [("users", [4])]⟩).httpRequests = 0
    ∧ (call_api exCfg exEpLim1 [] true 5 exNetOk ⟨[], [("users", [4])]⟩).sleeps = [] := by
  have h := c5_limit_reached exCfg exEpLim1 [] true 5 exNetOk ⟨[], [("users", [4])]⟩ 1
    (by omega) rfl rfl
  exact ⟨by omega, rfl, rfl, h.1, h.2.1, h.2.2⟩

/-- Claim C9 (confirmed): every parsing failure of
`register_service_from_config` — unreadable file, malformed JSON, missing
keys, invalid endpoint entry — happens before the registry is touched, so
the services and clients maps come out exactly as they went in and the
exception propagates. -/
theorem c9_parse_failure_no_mutation (st : RegistryState) (cf : ConfigFile)
    (e : ParseError) (h : parse_config cf = Except.error e) :
    (register_service_from_config st cf).1.services = st.services
    ∧ (register_service_from_config st cf).1.clients = st.clients
    ∧ register_service_from_config st cf = (st, [], Except.error e) := by
  simp [register_service_from_config, h]

/-- Witness for claim C9: a malformed-JSON file leaves the fresh registry
untouched. -/
theorem c9_parse_failure_no_mutation_witness :
    parse_config ConfigFile.badJson = Except.error ParseError.jsonDecode
    ∧ register_service_from_config RegistryState.init ConfigFile.badJson =
        (RegistryState.init, [], Except.error ParseError.jsonDecode) :=
  ⟨rfl, (c9_parse_failure_no_mutation RegistryState.init ConfigFile.badJson
      ParseError.jsonDecode rfl).2.2⟩

/-- A configuration document whose service definition is disabled and has
one endpoint. -/
def exDisabledJson : JValue := JValue.obj [
  ("service_config", JValue.obj [
     ("name", JValue.str "s"), ("base_url", JValue.str "b"),
     ("api_key", JValue.str "k")]),
  ("service_definition", JValue.obj [
     ("name", JValue.str "s"), ("category", JValue.str "c"),
     ("enabled", JValue.bool false),
     ("endpoints", JValue.obj [("e1", JValue.obj [("path", JValue.str "p1")])])])]

/-- The `ServiceDefinition` that `exDisabledJson` parses to. -/
def exDisabledDef : ServiceDefinition :=
  ⟨"s", "c", [("e1", ⟨"p1", "GET", "", [], "json", true, none, "json"⟩)], "", false⟩

/-- The `ServiceConfig` that `exDisabledJson` parses to. -/
def exMinCfg : ServiceConfig := ⟨"s", "b", "k", "v1", 30, 3, 300⟩

/-- Claim C3, as stated, is false: registering the disabled definition from
configuration leaves the registry empty as claimed, but
`_create_service_tools` runs unconditionally after `register_service`, so
the endpoint of the disabled definition does get a bound tool (`s_e1`). -/
theorem c3_counterexample :
    (register_service_from_config RegistryState.init
        (ConfigFile.parsed exDisabledJson)).2.1 = ["s_e1"]
    ∧ (["s_e1"] : List String) ≠ []
    ∧ (register_service_from_config RegistryState.init
        (ConfigFile.parsed exDisabledJson)).1.services = [] :=
  ⟨rfl, by decide, rfl⟩

/-- Claim C3 (amended): a disabled definition never enters the registry —
`register_service` is a no-op, and after `register_service_from_config` the
registry state, hence `list_services` and every client lookup, is exactly as
before — but the registration-from-config path still binds one tool per
endpoint of the disabled definition. -/
theorem c3_disabled_not_registered (st : RegistryState) (sdef : ServiceDefinition)
    (config : ServiceConfig) (cf : ConfigFile) (hdis : sdef.enabled = false) :
    register_service st sdef config = st
    ∧ (parse_config cf = Except.ok (config, sdef) →
        (register_service_from_config st cf).1 = st
        ∧ list_services (register_service_from_config st cf).1 = list_services st
        ∧ (∀ n, get_client (register_service_from_config st cf).1 n = get_client st n)
        ∧ (register_service_from_config st cf).2.1 =
            sdef.endpoints.map (fun p => sdef.name ++ "_" ++ p.1)) := by
  have hreg : register_service st sdef config = st := by
    simp [register_service, hdis]
  refine ⟨hreg, fun h => ?_⟩
  simp [register_service_from_config, h, hreg, create_service_tools]

/-- Witness for the amended claim C3: the disabled fixture is skipped by the
registry but still yields the tool list `["s_e1"]`. -/
theorem c3_disabled_not_registered_witness :
    exDisabledDef.enabled = false
    ∧ parse_config (ConfigFile.parsed exDisabledJson) = Except.ok (exMinCfg, exDisabledDef)
    ∧ register_service RegistryState.init exDisabledDef exMinCfg = RegistryState.init
    ∧ (register_service_from_config RegistryState.init
        (ConfigFile.parsed exDisabledJson)).1 = RegistryState.init := by
  have h := c3_disabled_not_registered RegistryState.init exDisabledDef exMinCfg
    (ConfigFile.parsed exDisabledJson) rfl
  exact ⟨rfl, rfl, h.1, (h.2 rfl).1⟩

/-- Claim C1, as stated, is false: the cache consultation in `call_api` is
commented out, so a second cache-enabled call with the same endpoint and
params, 10 time units after a successful first call and far within the
300-unit `cache_ttl`, still performs one HTTP request and returns whatever
the backend now answers (here a different payload) instead of the cached
one. -/
theorem c1_counterexample :
    (call_api exCfg exEpGet [] true 0 exNetOk ClientState.init).result
        = Except.ok (JValue.arr [JValue.num 1])
    ∧ 10 - 0 < exCfg.cache_ttl
    ∧ (call_api exCfg exEpGet [] true 10 exNetOk2
        (call_api exCfg exEpGet [] true 0 exNetOk ClientState.init).state).httpRequests = 1
    ∧ (call_api exCfg exEpGet [] true 10 exNetOk2
        (call_api exCfg exEpGet [] true 0 exNetOk ClientState.init).state).result
        = Except.ok (JValue.arr [JValue.num 2]) :=
  ⟨rfl, by decide, rfl, rfl⟩

/-- Claim C1 (amended): `call_api` never reads or writes the cache and
`use_cache` has no effect whatsoever; every admitted GET/POST call with at
least one retry allowed performs at least one fresh HTTP request, prior
identical successful calls within `cache_ttl` notwithstanding. -/
theorem c1_no_caching (config : ServiceConfig) (ep : APIEndpoint)
    (params : List (String × JValue)) (now : Nat) (net : Nat → NetResult)
    (st : ClientState)
    (hm : pyUpper ep.method = "GET" ∨ pyUpper ep.method = "POST")
    (hmr : 1 ≤ config.max_retries)
    (hgate : (check_rate_limit st ep.path ep.rate_limit now).1 = true) :
    (∀ uc, (call_api config ep params uc now net st).state.cache = st.cache)
    ∧ call_api config ep params true now net st = call_api config ep params false now net st
    ∧ 1 ≤ (call_api config ep params true now net st).httpRequests := by
  refine ⟨fun uc => call_api_cache_invariant config ep params uc now net st, rfl, ?_⟩
  have h := (call_api_admitted config ep params true now net st hgate).1
  rw [h]
  exact retry_loop_reqs_pos ep net hm config.max_retries 0 hmr

/-- Witness for the amended claim C1: the GET fixture leaves the (empty)
cache alone, ignores `use_cache`, and performs a request. -/
theorem c1_no_caching_witness :
    (pyUpper exEpGet.method = "GET" ∨ pyUpper exEpGet.method = "POST")
    ∧ 1 ≤ exCfg.max_retries
    ∧ (check_rate_limit ClientState.init exEpGet.path exEpGet.rate_limit 0).1 = true
    ∧ (call_api exCfg exEpGet [] true 0 exNetOk ClientState.init).state.cache = []
    ∧ call_api exCfg exEpGet [] true 0 exNetOk ClientState.init
        = call_api exCfg exEpGet [] false 0 exNetOk ClientState.init
    ∧ 1 ≤ (call_api exCfg exEpGet [] true 0 exNetOk ClientState.init).httpRequests := by
  have hm : pyUpper exEpGet.method = "GET" ∨ pyUpper exEpGet.method = "POST" :=
    Or.inl rfl
  have h := c1_no_caching exCfg exEpGet [] 0 exNetOk ClientState.init hm
    (by decide) rfl
  exact ⟨hm, by decide, rfl, h.1 true, h.2.1, h.2.2⟩

/-- Claim C2, as stated, is false in its no-retry half: the `ValueError` for
the unsupported PUT method is raised inside the `try`, so the handler
catches it, sleeps `2 ** 0` and `2 ** 1` between the three attempts of the
default configuration, and only re-raises it on the final attempt — though,
as claimed, zero HTTP requests are performed. -/
theorem c2_counterexample :
    (call_api exCfg exEpPut [] true 0 exNetOk ClientState.init).sleeps = [1, 2]
    ∧ ([1, 2] : List Nat) ≠ []
    ∧ (call_api exCfg exEpPut [] true 0 exNetOk ClientState.init).httpRequests = 0
    ∧ (call_api exCfg exEpPut [] true 0 exNetOk ClientState.init).result
        = Except.error (CallError.attempt (AttemptError.valueError "PUT")) :=
  ⟨rfl, by decide, rfl, rfl⟩

/-- Claim C2 (amended): an admitted call on an endpoint whose upper-cased
method is neither GET nor POST performs zero HTTP requests and fails with
the UnsupportedMethod `ValueError`; but the condition is retried like any
other in-loop failure: the loop runs all `max_retries` attempts, sleeping
`2 ^ attempt` after each non-final one, before the error propagates. -/
theorem c2_unsupported_method_retried (config : ServiceConfig) (ep : APIEndpoint)
    (params : List (String × JValue)) (uc : Bool) (now : Nat) (net : Nat → NetResult)
    (st : ClientState)
    (hm : ¬(pyUpper ep.method = "GET" ∨ pyUpper ep.method = "POST"))
    (hmr : 1 ≤ config.max_retries)
    (hgate : (check_rate_limit st ep.path ep.rate_limit now).1 = true) :
    (call_api config ep params uc now net st).result
        = Except.error (CallError.attempt (AttemptError.valueError ep.method))
    ∧ (call_api config ep params uc now net st).httpRequests = 0
    ∧ (call_api config ep params uc now net st).sleeps
        = (List.range (config.max_retries - 1)).map (fun i => 2 ^ i) := by
  have hloop := retry_loop_const_err ep net (fun _ => AttemptError.valueError ep.method) 0
    config.max_retries 0 hmr (fun i _ => attempt_once_unsupported ep hm (net (0 + i)))
  have hadm := call_api_admitted config ep params uc now net st hgate
  refine ⟨?_, ?_, ?_⟩
  · exact hadm.2.2.1 (AttemptError.valueError ep.method) (by rw [hloop])
  · rw [hadm.1, hloop]
    simp
  · rw [hadm.2.1, hloop, List.range_eq_range']

/-- Witness for the amended claim C2: PUT with the default three retries
sleeps 1 then 2 and raises the ValueError with no HTTP traffic. -/
theorem c2_unsupported_method_retried_witness :
    ¬(pyUpper exEpPut.method = "GET" ∨ pyUpper exEpPut.method = "POST")
    ∧ 1 ≤ exCfg.max_retries
    ∧ (call_api exCfg exEpPut [] true 0 exNetOk ClientState.init).result
        = Except.error (CallError.attempt (AttemptError.valueError "PUT"))
    ∧ (call_api exCfg exEpPut [] true 0 exNetOk ClientState.init).httpRequests = 0
    ∧ (call_api exCfg exEpPut [] true 0 exNetOk ClientState.init).sleeps
        = (List.range 2).map (fun i => 2 ^ i) := by
  have hm : ¬(pyUpper exEpPut.method = "GET" ∨ pyUpper exEpPut.method = "POST") := by
    decide
  have h := c2_unsupported_method_retried exCfg exEpPut [] true 0 exNetOk ClientState.init
    hm (by decide) rfl
  exact ⟨hm, by decide, h.1, h.2.1, h.2.2⟩

/-- Whether an attempt verdict is a success. -/
def attemptOk : Except AttemptError JValue → Bool
  | Except.ok _ => true
  | Except.error _ => false

/-- The exception carried by a failed attempt verdict (arbitrary constant on
a success, where it is never used). -/
def errValue : Except AttemptError JValue → AttemptError
  | Except.error e => e
  | Except.ok _ => AttemptError.jsonDecode

/-- A verdict that is not a success is the error it carries. -/
theorem attemptOk_false_eq (r : Except AttemptError JValue) (h : attemptOk r = false) :
    r = Except.error (errValue r) := by
  cases r <;> simp_all [attemptOk, errValue]

/-- A failed supported-method attempt is one HTTP request carrying its
error. -/
theorem attempt_once_err_of_not_ok (ep : APIEndpoint) (net : Nat → NetResult)
    (hm : pyUpper ep.method = "GET" ∨ pyUpper ep.method = "POST") (i : Nat)
    (h : attemptOk (attemptOutcome ep (net i)) = false) :
    attempt_once ep (net i) =
      (Except.error (errValue (attemptOutcome ep (net i))), 1) := by
  rcases hout : attemptOutcome ep (net i) with e | v
  · rw [attempt_once_supported ep hm (net i), hout]
    simp [errValue]
  · rw [hout] at h
    simp [attemptOk] at h

/-- Claim C6 (confirmed): for an admitted call on a GET/POST endpoint with
`max_retries ≥ 1` — if every attempt fails, the loop performs exactly
`max_retries` HTTP requests with sleeps `2 ^ attempt` between consecutive
attempts and re-raises the error of the last attempt (which carries the
HTTP status and body, or the transport message); if the first success comes
on attempt k (1-based, k ≤ max_retries), its payload is returned after
exactly k HTTP requests. -/
theorem c6_retry_policy (config : ServiceConfig) (ep : APIEndpoint)
    (params : List (String × JValue)) (uc : Bool) (now : Nat) (net : Nat → NetResult)
    (st : ClientState)
    (hm : pyUpper ep.method = "GET" ∨ pyUpper ep.method = "POST")
    (hmr : 1 ≤ config.max_retries)
    (hgate : (check_rate_limit st ep.path ep.rate_limit now).1 = true) :
    (∀ elast, (∀ i, i < config.max_retries → attemptOk (attemptOutcome ep (net i)) = false) →
      attemptOutcome ep (net (config.max_retries - 1)) = Except.error elast →
      (call_api config ep params uc now net st).result
          = Except.error (CallError.attempt elast)
      ∧ (call_api config ep params uc now net st).httpRequests = config.max_retries
      ∧ (call_api config ep params uc now net st).sleeps
          = (List.range (config.max_retries - 1)).map (fun i => 2 ^ i))
    ∧ (∀ k v, 1 ≤ k → k ≤ config.max_retries →
      (∀ i, i < k - 1 → attemptOk (attemptOutcome ep (net i)) = false) →
      attemptOutcome ep (net (k - 1)) = Except.ok v →
      (call_api config ep params uc now net st).result = Except.ok v
      ∧ (call_api config ep params uc now net st).httpRequests = k
      ∧ (call_api config ep params uc now net st).sleeps
          = (List.range (k - 1)).map (fun i => 2 ^ i)) := by
  have hadm := call_api_admitted config ep params uc now net st hgate
  constructor
  · intro elast hall hlast
    have hloop := retry_loop_const_err ep net
      (fun j => errValue (attemptOutcome ep (net j))) 1 config.max_retries 0 hmr
      (fun i hi => attempt_once_err_of_not_ok ep net hm (0 + i)
        (by rw [Nat.zero_add]; exact hall i hi))
    have e0 : 0 + config.max_retries - 1 = config.max_retries - 1 := by omega
    have hfin : errValue (attemptOutcome ep (net (config.max_retries - 1))) = elast := by
      rw [hlast]
      rfl
    refine ⟨hadm.2.2.1 elast ?_, ?_, ?_⟩
    · rw [hloop]
      simp [e0, hfin]
    · rw [hadm.1, hloop]
      simp
    · rw [hadm.2.1, hloop, List.range_eq_range']
  · intro k v hk1 hk2 hfail hok
    have hj : k - 1 < config.max_retries := by omega
    have hok' : attempt_once ep (net (0 + (k - 1))) = (Except.ok v, 1) := by
      rw [attempt_once_supported ep hm (net (0 + (k - 1))), Nat.zero_add, hok]
    have hloop := retry_loop_ok_at ep net 1 (k - 1) config.max_retries 0 v hj
      (fun i hi => ⟨errValue (attemptOutcome ep (net (0 + i))),
        by rw [Nat.zero_add]; exact attempt_once_err_of_not_ok ep net hm i (hfail i hi)⟩)
      hok'
    refine ⟨hadm.2.2.2.1 v (by rw [hloop]), ?_, ?_⟩
    · rw [hadm.1, hloop]
      simp
      omega
    · rw [hadm.2.1, hloop, List.range_eq_range']

/-- Witness for claim C6: the default three-retry configuration against a
backend that always answers 500 performs three requests, sleeps 1 then 2,
and surfaces the API error of the last attempt. -/
theorem c6_retry_policy_witness :
    (pyUpper exEpGet.method = "GET" ∨ pyUpper exEpGet.method = "POST")
    ∧ 1 ≤ exCfg.max_retries
    ∧ (∀ i, i < exCfg.max_retries → attemptOk (attemptOutcome exEpGet (exNetFail i)) = false)
    ∧ attemptOutcome exEpGet (exNetFail (exCfg.max_retries - 1))
        = Except.error (AttemptError.apiError 500 "boom")
    ∧ (call_api exCfg exEpGet [] true 0 exNetFail ClientState.init).result
        = Except.error (CallError.attempt (AttemptError.apiError 500 "boom"))
    ∧ (call_api exCfg exEpGet [] true 0 exNetFail ClientState.init).httpRequests = 3
    ∧ (call_api exCfg exEpGet [] true 0 exNetFail ClientState.init).sleeps = [1, 2] := by
  have hm : pyUpper exEpGet.method = "GET" ∨ pyUpper exEpGet.method = "POST" :=
    Or.inl rfl
  have hall : ∀ i, i < exCfg.max_retries →
      attemptOk (attemptOutcome exEpGet (exNetFail i)) = false := fun i _ => rfl
  have h := (c6_retry_policy exCfg exEpGet [] true 0 exNetFail ClientState.init hm
    (by decide) rfl).1 (AttemptError.apiError 500 "boom") hall rfl
  refine ⟨hm, by decide, hall, rfl, h.1, h.2.1, ?_⟩
  rw [h.2.2]
  rfl

/-- Claim C7, as stated, is false for a success response whose JSON body is
not an object: the claim demands the empty list (the `data` key being
absent), but `json_resp.get("data")` on the parsed array raises
`AttributeError` and the attempt fails. -/
theorem c7_counterexample :
    handle_response ⟨200, "[]", some (JValue.arr [])⟩ exEpGet
        = Except.error AttemptError.attributeError
    ∧ (Except.error AttemptError.attributeError
        ≠ (Except.ok (JValue.arr []) : Except AttemptError JValue)) :=
  ⟨rfl, by simp⟩

/-- Claim C7 (amended): a status of 400 or above raises the API error
regardless of the format tag; on a success status a non-json-tagged
endpoint wraps the body text as `{content: text}`; a json-tagged endpoint
whose body parses to a JSON object returns the value at `data.list`,
returning the empty list when `data` is absent or falsy and the `list`
default when only `list` is absent — while a body parsing to a non-object
(for example an array) raises `AttributeError` instead. -/
theorem c7_response_normalization (r : HTTPResponse) (ep : APIEndpoint) :
    (400 ≤ r.status →
      handle_response r ep = Except.error (AttemptError.apiError r.status r.text))
    ∧ (r.status < 400 → ep.response_format ≠ "json" →
      handle_response r ep = Except.ok (JValue.obj [("content", JValue.str r.text)]))
    ∧ (r.status < 400 → ep.response_format = "json" →
      (∀ fields, r.jsonBody = some (JValue.obj fields) →
        (dictGet fields ("data") = none →
          handle_response r ep = Except.ok (JValue.arr []))
        ∧ (∀ d, dictGet fields ("data") = some d → d.truthy = false →
          handle_response r ep = Except.ok (JValue.arr []))
        ∧ (∀ dfields, dictGet fields ("data") = some (JValue.obj dfields) →
            (JValue.obj dfields).truthy = true →
            handle_response r ep =
              Except.ok ((dictGet dfields ("list")).getD (JValue.arr []))))
      ∧ (∀ xs, r.jsonBody = some (JValue.arr xs) →
        handle_response r ep = Except.error AttemptError.attributeError)) := by
  refine ⟨fun h4 => ?_, fun h4 hfmt => ?_, fun h4 hfmt => ⟨fun fields hb => ⟨?_, ?_, ?_⟩, ?_⟩⟩
  · simp [handle_response, h4]
  · have hn : ¬(400 ≤ r.status) := by omega
    simp [handle_response, hn, hfmt]
  · intro hd
    have hn : ¬(400 ≤ r.status) := by omega
    simp [handle_response, hn, hfmt, hb, hd, JValue.truthy, dictGet]
  · intro d hd htr
    have hn : ¬(400 ≤ r.status) := by omega
    rcases d with _ | b | n | s | xs | fs <;>
      simp_all [handle_response, hn, hfmt, hb, hd, JValue.truthy, dictGet]
  · intro dfields hd htr
    have hn : ¬(400 ≤ r.status) := by omega
    simp [handle_response, hn, hfmt, hb, hd, htr]
  · intro xs hb
    have hn : ¬(400 ≤ r.status) := by omega
    simp [handle_response, hn, hfmt, hb]

/-- Witness for the amended claim C7: a 200 response carrying
`{"data": {"list": [7]}}` on a json endpoint projects out `[7]`. -/
theorem c7_response_normalization_witness :
    (200 : Nat) < 400
    ∧ exEpGet.response_format = "json"
    ∧ (⟨200, "t", some (JValue.obj [("data", JValue.obj [("list", JValue.arr [JValue.num 7])])])⟩ : HTTPResponse).jsonBody
        = some (JValue.obj [("data", JValue.obj [("list", JValue.arr [JValue.num 7])])])
    ∧ handle_response
        ⟨200, "t", some (JValue.obj [("data", JValue.obj [("list", JValue.arr [JValue.num 7])])])⟩
        exEpGet = Except.ok (JValue.arr [JValue.num 7]) := by
  refine ⟨by omega, rfl, rfl, ?_⟩
  have h := ((c7_response_normalization
    ⟨200, "t", some (JValue.obj [("data", JValue.obj [("list", JValue.arr [JValue.num 7])])])⟩
    exEpGet).2.2 (by decide) rfl).1
    [("data", JValue.obj [("list", JValue.arr [JValue.num 7])])] rfl
  exact (h.2.2 [("list", JValue.arr [JValue.num 7])] rfl rfl).trans rfl

/-- Claim C10, as stated, is false in the degenerate `max_retries = 0`
configuration: the loop never runs, `return result` raises
`UnboundLocalError`, yet the timestamp-recording line before it has already
appended the current time to the window of the rate-limited endpoint — a
failed call that did consume rate-limit budget without any HTTP attempt. -/
theorem c10_counterexample :
    (call_api exCfg0 exEpLim1 [] true 5 exNetOk ClientState.init).result
        = Except.error CallError.unboundLocal
    ∧ (call_api exCfg0 exEpLim1 [] true 5 exNetOk ClientState.init).httpRequests = 0
    ∧ dictGet (call_api exCfg0 exEpLim1 [] true 5 exNetOk
        ClientState.init).state.rate_limits "users" = some [5] :=
  ⟨rfl, rfl, rfl⟩

/-- Claim C10 (amended): with `max_retries ≥ 1`, a failing `call_api` —
rate-limit rejection, unsupported method, or exhausted retries — leaves the
rate-limit window exactly as the admission check left it (pruned, nothing
appended), and a successful call appends the current time to the pruned
window of its path exactly when a truthy limit is configured, leaving the
map untouched otherwise. -/
theorem c10_rate_window_frame (config : ServiceConfig) (ep : APIEndpoint)
    (params : List (String × JValue)) (uc : Bool) (now : Nat) (net : Nat → NetResult)
    (st : ClientState) (hmr : 1 ≤ config.max_retries) :
    (∀ e, (call_api config ep params uc now net st).result = Except.error e →
      (call_api config ep params uc now net st).state.rate_limits
        = (check_rate_limit st ep.path ep.rate_limit now).2.rate_limits)
    ∧ (∀ v, (call_api config ep params uc now net st).result = Except.ok v →
      rl_truthy ep.rate_limit = false →
      (call_api config ep params uc now net st).state.rate_limits = st.rate_limits)
    ∧ (∀ v, (call_api config ep params uc now net st).result = Except.ok v →
      rl_truthy ep.rate_limit = true →
      (call_api config ep params uc now net st).state.rate_limits
        = dictInsert st.rate_limits ep.path (pruned_window st ep.path now ++ [now])) := by
  rcases hb : (check_rate_limit st ep.path ep.rate_limit now).1 with _ | _
  · rw [call_api_rejected config ep params uc now net st hb]
    refine ⟨fun e _ => rfl, fun v hv _ => ?_, fun v hv _ => ?_⟩ <;> simp at hv
  · have hsome := retry_loop_outcome_isSome ep net config.max_retries 0 hmr
    rcases ho : (retry_loop ep net config.max_retries 0).outcome with _ | res
    · rw [ho] at hsome
      simp at hsome
    · rcases res with e | v
      · refine ⟨fun e2 _ => ?_, fun v hv _ => ?_, fun v hv _ => ?_⟩
        · simp [call_api, hb, ho]
        · have := (call_api_admitted config ep params uc now net st hb).2.2.1 e ho
          rw [this] at hv
          simp at hv
        · have := (call_api_admitted config ep params uc now net st hb).2.2.1 e ho
          rw [this] at hv
          simp at hv
      · have hres := (call_api_admitted config ep params uc now net st hb).2.2.2.1 v ho
        refine ⟨fun e2 he2 => ?_, fun v2 _ hrl => ?_, fun v2 _ hrl => ?_⟩
        · rw [hres] at he2
          simp at he2
        · simp [call_api, hb, ho, hrl]
          simp [check_rate_limit, hrl]
        · simp [call_api, hb, ho, hrl]
          simp [check_rate_limit, hrl, append_ts]
          rcases hn : ep.rate_limit with _ | n
          · rw [hn] at hrl
            simp [rl_truthy] at hrl
          · rw [hn] at hrl
            simp only [rl_truthy] at hrl
            simp [check_rate_limit, rl_truthy, hn, hrl, append_ts,
              dictGet_dictInsert_self, dictInsert_dictInsert, pruned_window]

/-- Witness for the amended claim C10: a successful rate-limited call
appends its timestamp to the freshly pruned window. -/
theorem c10_rate_window_frame_witness :
    1 ≤ exCfg.max_retries
    ∧ (call_api exCfg exEpLim1 [] true 5 exNetOk ClientState.init).result
        = Except.ok (JValue.arr [JValue.num 1])
    ∧ rl_truthy exEpLim1.rate_limit = true
    ∧ (call_api exCfg exEpLim1 [] true 5 exNetOk ClientState.init).state.rate_limits
        = [("users", [5])] := by
  have h := (c10_rate_window_frame exCfg exEpLim1 [] true 5 exNetOk ClientState.init
    (by decide)).2.2 (JValue.arr [JValue.num 1]) rfl rfl
  refine ⟨by decide, rfl, rfl, ?_⟩
  rw [h]
  rfl

/-- A registered definition whose endpoints do not contain the captured
endpoint name `e` (as after a reload that replaced the definition). -/
def exServiceDefOther : ServiceDefinition := ⟨"s", "c", [("other", exEpGet)], "", true⟩

/-- A registry holding `exServiceDefOther` and its client. -/
def exRegistryMiss : RegistryState := ⟨[("s", exServiceDefOther)], [("s", exCfg)]⟩

/-- A registered definition carrying the captured endpoint name `e`. -/
def exServiceDefE : ServiceDefinition := ⟨"s", "c", [("e", exEpGet)], "", true⟩

/-- A registry holding `exServiceDefE` and its client. -/
def exRegistryOk : RegistryState := ⟨[("s", exServiceDefE)], [("s", exCfg)]⟩

/-- Claim C8, as stated, is false: when the registry still knows the
service but its (reloaded) definition no longer contains the captured
endpoint name, `service.endpoints[ep_name]` sits outside the `try` and its
`KeyError` escapes the handler instead of a string being returned. -/
theorem c8_counterexample :
    handler_func exRegistryMiss "s" "e" [] 0 exNetOk ClientState.init
        = HandlerOutcome.raises ("KeyError: " ++ "e")
    ∧ (handler_func exRegistryMiss "s" "e" [] 0 exNetOk ClientState.init).isReturn
        = false :=
  ⟨rfl, rfl⟩

/-- Claim C8 (amended): the tool handler returns a string — the
service-unavailable message on a registry miss of the captured service
name, the pretty-printed (non-ASCII preserving) JSON of a successful call,
and the call-failed diagnostic carrying the error message on any call
failure — provided the registered definition still contains the captured
endpoint name; when it does not, the endpoint lookup raises `KeyError`
out of the handler. -/
theorem c8_handler_outcomes (reg : RegistryState) (sname epname : String)
    (kwargs : List (String × JValue)) (now : Nat) (net : Nat → NetResult)
    (cst : ClientState) :
    ((get_client reg sname = none ∨ get_service reg sname = none) →
      handler_func reg sname epname kwargs now net cst
        = HandlerOutcome.returns ("服务 " ++ sname ++ " 不可用"))
    ∧ (∀ config service ep, get_client reg sname = some config →
        get_service reg sname = some service →
        dictGet service.endpoints epname = some ep →
        (handler_func reg sname epname kwargs now net cst).isReturn = true
        ∧ (∀ v, (call_api config ep kwargs false now net cst).result = Except.ok v →
            handler_func reg sname epname kwargs now net cst
              = HandlerOutcome.returns (json_dumps v))
        ∧ (∀ e, (call_api config ep kwargs false now net cst).result = Except.error e →
            handler_func reg sname epname kwargs now net cst
              = HandlerOutcome.returns ("调用失败: " ++ errString e)))
    ∧ (∀ config service, get_client reg sname = some config →
        get_service reg sname = some service →
        dictGet service.endpoints epname = none →
        handler_func reg sname epname kwargs now net cst
          = HandlerOutcome.raises ("KeyError: " ++ epname)) := by
  refine ⟨fun hmiss => ?_, fun config service ep hc hs hep => ?_,
    fun config service hc hs hep => ?_⟩
  · rcases h1 : get_client reg sname with _ | config
    · simp [handler_func, h1]
    · rcases h2 : get_service reg sname with _ | service
      · simp [handler_func, h1, h2]
      · rcases hmiss with h | h
        · rw [h1] at h
          simp at h
        · rw [h2] at h
          simp at h
  · refine ⟨?_, fun v hv => ?_, fun e he => ?_⟩
    · rcases hr : (call_api config ep kwargs false now net cst).result with e | v <;>
        simp [handler_func, hc, hs, hep, hr, HandlerOutcome.isReturn]
    · simp [handler_func, hc, hs, hep, hv]
    · simp [handler_func, hc, hs, hep, he]
  · simp [handler_func, hc, hs, hep]

/-- Witness for the amended claim C8: with the endpoint present, a
successful call is returned as its pretty-printed JSON, and an absent
service yields the unavailable message. -/
theorem c8_handler_outcomes_witness :
    get_client exRegistryOk "s" = some exCfg
    ∧ get_service exRegistryOk "s" = some exServiceDefE
    ∧ dictGet exServiceDefE.endpoints "e" = some exEpGet
    ∧ (call_api exCfg exEpGet [] false 0 exNetOk ClientState.init).result
        = Except.ok (JValue.arr [JValue.num 1])
    ∧ handler_func exRegistryOk "s" "e" [] 0 exNetOk ClientState.init
        = HandlerOutcome.returns (json_dumps (JValue.arr [JValue.num 1]))
    ∧ handler_func RegistryState.init "s" "e" [] 0 exNetOk ClientState.init
        = HandlerOutcome.returns ("服务 " ++ "s" ++ " 不可用") := by
  have h := (c8_handler_outcomes exRegistryOk "s" "e" [] 0 exNetOk ClientState.init).2.1
    exCfg exServiceDefE exEpGet rfl rfl rfl
  have h2 := (c8_handler_outcomes RegistryState.init "s" "e" [] 0 exNetOk
    ClientState.init).1 (Or.inl rfl)
  exact ⟨rfl, rfl, rfl, rfl, h.2.1 (JValue.arr [JValue.num 1]) rfl, h2⟩
